import Mathlib

/-!
A shallow embedding of the control-plane core of the surface-ipu3-cameras
ov5670 driver (src/ov5670/ov5670.c) and of the firmware-blob reader
(src/misc/get_acpi_data/get_acpi_data.c), with theorems checking the
natural-language specification against the code.

External collaborators (the gpiod/regulator/clk subsystems, the i2c bus,
runtime PM and the v4l2 control framework) are modelled by environment
records that supply the return codes of the individual external calls; the
driver code itself is translated statement by statement.  C error codes are
Lean integers (0 = success, negative = -errno).
-/

namespace OV5670

/-! Resource sequencer (power state machine).

State of the two enable flags tracked by `struct ov5670`
(`regulator_enabled`, `clk_enabled`), a counter of `power_ctrl`
invocations (used to index the environment stream), and an event trace
recording every resource operation in the order the code performs it. -/

/-- One observable resource-sequencer event. `crsSet b` is `gpio_crs_ctrl`
setting the three firmware-declared GPIO lines to level `b`; `pmicSet b` is
`gpio_pmic_ctrl` setting the ten companion-PMIC GPIO lines; the remaining
events are the regulator-bulk and clock enable/disable calls and the two
`usleep_range` settle delays. -/
inductive PEv
  | crsSet (flag : Bool)
  | pmicSet (flag : Bool)
  | regEnable
  | regDisable
  | clkEnable
  | clkDisable
  | sleepRange (lo hi : Nat)
deriving DecidableEq, Repr

/-- Return codes of the fallible external calls made by one `power_ctrl`
invocation: `regulator_bulk_enable`, `clk_prepare_enable`,
`regulator_bulk_disable`.  (`gpiod_set_value_cansleep` returns void and
`clk_disable_unprepare` returns void, so they have no code here.) -/
structure PCEnv where
  regEnableRet : Int
  clkEnableRet : Int
  regDisableRet : Int
deriving DecidableEq, Repr

/-- The power-relevant fields of `struct ov5670` plus bookkeeping: `calls`
indexes the environment stream (one entry per `power_ctrl` call), `trace`
accumulates the resource events. -/
structure OvPower where
  clk_enabled : Bool
  regulator_enabled : Bool
  calls : Nat
  trace : List PEv
deriving DecidableEq, Repr

/-- Function `gpio_crs_ctrl`: sets the three `_CRS` GPIO lines (xshutdn, pwdnb,
led_gpio) to `flag` via `gpiod_set_value_cansleep` and returns 0. -/
def gpio_crs_ctrl (flag : Bool) (s : OvPower) : Int × OvPower :=
  (0, { s with trace := s.trace ++ [PEv.crsSet flag] })

/-- Function `gpio_pmic_ctrl`: sets the ten tps68470 GPIO lines to `flag` via
`gpiod_set_value_cansleep` and returns 0. -/
def gpio_pmic_ctrl (flag : Bool) (s : OvPower) : Int × OvPower :=
  (0, { s with trace := s.trace ++ [PEv.pmicSet flag] })

/-- Function `gpio_ctrl`: the body is only a TODO comment and `return 0`. -/
def gpio_ctrl (_flag : Bool) : Int := 0

/-- Call `usleep_range(lo, hi)`: records the settle delay. -/
def sleep_range (lo hi : Nat) (s : OvPower) : OvPower :=
  { s with trace := s.trace ++ [PEv.sleepRange lo hi] }

/-- Function `power_ctrl(sd, flag)`, translated statement by statement.  The local
`ret` is overwritten at every step exactly as in the C; the `turn off in
reverse order` block is not under any `else` and therefore runs on every
call, including `flag = true` calls.  The returned code is the result of
the final `gpio_crs_ctrl(sd, flag)` call. -/
def power_ctrl (env : Nat → PCEnv) (flag : Bool) (s0 : OvPower) : Int × OvPower :=
  let e := env s0.calls
  let s := { s0 with calls := s0.calls + 1 }
  -- /* turn on */
  let (retOn, s) :=
    if flag then
      let (_ret, s) := gpio_crs_ctrl flag s          -- ret = gpio_crs_ctrl(sd, flag)
      let (_ret, s) := gpio_pmic_ctrl flag s         -- ret = gpio_pmic_ctrl(sd, flag)
      let _ret := e.regEnableRet                     -- ret = regulator_bulk_enable(...)
      let s := { s with regulator_enabled := true,
                        trace := s.trace ++ [PEv.regEnable] }
      let ret := e.clkEnableRet                      -- ret = clk_prepare_enable(xvclk)
      let s := { s with clk_enabled := true,
                        trace := s.trace ++ [PEv.clkEnable] }
      (ret, s)
    else
      ((0 : Int), s)                                 -- ret stays uninitialized (dead)
  -- /* turn off in reverse order */
  let s :=
    if s.clk_enabled then
      { s with clk_enabled := false, trace := s.trace ++ [PEv.clkDisable] }
    else s
  let (_retOff, s) :=
    if s.regulator_enabled then
      -- ret = regulator_bulk_disable(...)
      (e.regDisableRet,
       { s with regulator_enabled := false, trace := s.trace ++ [PEv.regDisable] })
    else (retOn, s)
  let (_ret, s) := gpio_pmic_ctrl flag s             -- ret = gpio_pmic_ctrl(sd, flag)
  let (ret, s) := gpio_crs_ctrl flag s               -- ret = gpio_crs_ctrl(sd, flag)
  (ret, s)

/-- Function `__power_up(sd)`: power control, 10-11 ms delay, gpio ctrl (retried
once), 30-31 ms delay; on failure the `fail_power` label powers back down
with `power_ctrl(sd, 0)` and surfaces the error. -/
def __power_up (env : Nat → PCEnv) (s : OvPower) : Int × OvPower :=
  let ret := (power_ctrl env true s).1
  let s := (power_ctrl env true s).2
  if ret ≠ 0 then
    (ret, (power_ctrl env false s).2)                -- fail_power
  else
    let s := sleep_range 10000 11000 s
    let ret := gpio_ctrl true
    if ret ≠ 0 then
      let ret := gpio_ctrl true
      if ret ≠ 0 then
        (ret, (power_ctrl env false s).2)            -- fail_power
      else
        let s := sleep_range 30000 31000 s
        ((0 : Int), s)
    else
      let s := sleep_range 30000 31000 s
      ((0 : Int), s)

/-- Function `power_down(sd)`: gpio ctrl off (retried once, result only logged),
then `power_ctrl(sd, 0)` whose result is returned. -/
def power_down (env : Nat → PCEnv) (s : OvPower) : Int × OvPower :=
  let ret := gpio_ctrl false
  let _ret := if ret ≠ 0 then gpio_ctrl false else ret
  power_ctrl env false s                             -- ret = power_ctrl(sd, 0)

/-- The retry loop of `power_up(sd)`, abstracted over the attempt step
(`__power_up`) and the between-attempt recovery step (`power_down`, whose
return value the loop discards).  Fuel is the remaining iteration count;
`last` is the C local `ret` carried across iterations.  Also returns how
many attempts were made. -/
def power_up_go {σ : Type} (pUp : σ → Int × σ) (pDown : σ → σ) :
    Nat → σ → Int → Int × σ × Nat
  | 0, s, last => (last, s, 0)
  | n + 1, s, _last =>
    let ret := (pUp s).1
    let s' := (pUp s).2
    if ret = 0 then (0, s', 1)
    else
      let r := power_up_go pUp pDown n (pDown s') ret
      (r.1, r.2.1, r.2.2 + 1)

/-- Constant `static const int retry_count = 4;`. -/
def retry_count : Nat := 4

/-- Function `power_up(sd)`: up to `retry_count` attempts of `__power_up`, a full
`power_down` after each failed attempt, the last attempt's error returned
after exhaustion. -/
def power_up (env : Nat → PCEnv) (s : OvPower) : Int × OvPower :=
  let r := power_up_go (__power_up env) (fun t => (power_down env t).2) retry_count s 0
  (r.1, r.2.1)

/-! Streaming state machine.

`ov5670_set_stream`, `ov5670_start_streaming`, `ov5670_stop_streaming` and
the system suspend/resume hooks.  The i2c writes and the runtime-PM
activation are external calls; a `StreamEnv` supplies their return codes.
The runtime-PM usage counter is tracked explicitly (`pm_runtime_get_sync`
increments it even when it fails, which is why the code pairs that failure
with `pm_runtime_put_noidle`). -/

/-- A runtime-PM reference-count event. -/
inductive PmEv
  | get
  | put
  | putNoidle
deriving DecidableEq, Repr

/-- Return codes of the external calls made during a set-stream operation:
runtime-PM activation, the software-reset write, the PLL register list, the
mode register list, the control-handler replay, the streaming-mode write
and the standby write. -/
structure StreamEnv where
  pmGetRet : Int
  resetRet : Int
  pllRet : Int
  modeRet : Int
  setupRet : Int
  streamOnRet : Int
  standbyRet : Int
deriving DecidableEq, Repr

/-- The streaming-relevant state: the `streaming` flag of `struct ov5670`
and the runtime-PM usage count of the client device. -/
structure StreamState where
  streaming : Bool
  pmCount : Int
deriving DecidableEq, Repr

/-- Function `ov5670_start_streaming`: software reset, PLL list, mode list, control
replay, stream-on write; the first failing step's error is returned, later
steps are not executed. -/
def ov5670_start_streaming (e : StreamEnv) : Int :=
  let ret := e.resetRet
  if ret ≠ 0 then ret
  else
    let ret := e.pllRet
    if ret ≠ 0 then ret
    else
      let ret := e.modeRet
      if ret ≠ 0 then ret
      else
        let ret := e.setupRet
        if ret ≠ 0 then ret
        else
          let ret := e.streamOnRet
          if ret ≠ 0 then ret else 0

/-- Function `ov5670_stop_streaming`: writes standby mode; a write failure is only
logged — the function returns success unconditionally. -/
def ov5670_stop_streaming (e : StreamEnv) : Int :=
  let _ret := e.standbyRet
  0

/-- Function `ov5670_set_stream(sd, enable)` under the mutex: no-op when already in
the requested state; on enable, `pm_runtime_get_sync` (with
`pm_runtime_put_noidle` on its failure), then `ov5670_start_streaming`
(with `pm_runtime_put` on its failure); on disable,
`ov5670_stop_streaming` then `pm_runtime_put`.  Returns the error code, the
new state, and the list of runtime-PM events this call performed. -/
def ov5670_set_stream (e : StreamEnv) (enable : Bool) (s : StreamState) :
    Int × StreamState × List PmEv :=
  if s.streaming = enable then (0, s, [])
  else if enable then
    let s := { s with pmCount := s.pmCount + 1 }     -- ret = pm_runtime_get_sync(dev)
    if e.pmGetRet < 0 then
      (e.pmGetRet, { s with pmCount := s.pmCount - 1 }, [PmEv.get, PmEv.putNoidle])
    else
      let ret := ov5670_start_streaming e
      if ret ≠ 0 then
        (ret, { s with pmCount := s.pmCount - 1 }, [PmEv.get, PmEv.put])  -- error:
      else
        (0, { s with streaming := true }, [PmEv.get])
  else
    let ret := ov5670_stop_streaming e
    (ret, { s with streaming := false, pmCount := s.pmCount - 1 }, [PmEv.put])

/-- Function `ov5670_suspend`: if streaming, force a stop (standby write) without
touching the logical streaming flag or the PM count; always returns 0. -/
def ov5670_suspend (e : StreamEnv) (s : StreamState) : Int × StreamState :=
  let _ret := if s.streaming then ov5670_stop_streaming e else 0
  (0, s)

/-- Function `ov5670_resume`: if the logical flag is still streaming, redo the full
start sequence; on failure force a stop and surface the error.  Neither
branch touches the streaming flag or the PM count. -/
def ov5670_resume (e : StreamEnv) (s : StreamState) : Int × StreamState :=
  if s.streaming then
    let ret := ov5670_start_streaming e
    if ret ≠ 0 then
      let _r := ov5670_stop_streaming e
      (ret, s)
    else (0, s)
  else (0, s)

/-- States reachable from the attach-time state (not streaming, no PM
reference held by the streaming path) through set-stream, suspend and
resume transitions, under arbitrary environments. -/
inductive Reach : StreamState → Prop
  | init : Reach ⟨false, 0⟩
  | stream (e : StreamEnv) (enable : Bool) (s : StreamState) :
      Reach s → Reach (ov5670_set_stream e enable s).2.1
  | susp (e : StreamEnv) (s : StreamState) :
      Reach s → Reach (ov5670_suspend e s).2
  | res (e : StreamEnv) (s : StreamState) :
      Reach s → Reach (ov5670_resume e s).2

/-! Mode catalog, controls, mode negotiation and control propagation. -/

/-- Register-level constants from the top of ov5670.c. -/
def OV5670_VTS_30FPS : Int := 0x0808

def OV5670_VTS_MAX : Int := 0xffff

def OV5670_FIXED_PPL : Int := 2724

def OV5670_EXPOSURE_MIN : Int := 4

def OV5670_EXPOSURE_STEP : Int := 1

def OV5670_PIXEL_RATE : Int := (422400000 * 2 * 2) / 10

/-- One entry of the supported-mode catalog (`struct ov5670_mode`); the
opaque register list is not part of the control-plane model. -/
structure Mode where
  width : Int
  height : Int
  vts_def : Int
  vts_min : Int
  link_freq_index : Nat
deriving DecidableEq, Repr

/-- The six entries of the static `supported_modes[]` catalog. -/
def mode_2592x1944 : Mode := ⟨2592, 1944, OV5670_VTS_30FPS, OV5670_VTS_30FPS, 0⟩

/-- Catalog entry 1296x972. -/
def mode_1296x972 : Mode := ⟨1296, 972, OV5670_VTS_30FPS, 996, 0⟩

/-- Catalog entry 648x486. -/
def mode_648x486 : Mode := ⟨648, 486, OV5670_VTS_30FPS, 516, 0⟩

/-- Catalog entry 2560x1440. -/
def mode_2560x1440 : Mode := ⟨2560, 1440, OV5670_VTS_30FPS, OV5670_VTS_30FPS, 0⟩

/-- Catalog entry 1280x720. -/
def mode_1280x720 : Mode := ⟨1280, 720, OV5670_VTS_30FPS, 1020, 0⟩

/-- Catalog entry 640x360. -/
def mode_640x360 : Mode := ⟨640, 360, OV5670_VTS_30FPS, 510, 0⟩

/-- The static `supported_modes[]` catalog, in declaration order. -/
def supported_modes : List Mode :=
  [mode_2592x1944, mode_1296x972, mode_648x486,
   mode_2560x1440, mode_1280x720, mode_640x360]

/-- A v4l2 control as far as this driver observes it: range, default,
current value and the read-only flag. -/
structure Ctrl where
  minimum : Int
  maximum : Int
  step : Int
  dflt : Int
  val : Int
  readOnly : Bool
deriving DecidableEq, Repr

/-- Clamp `x` into `[lo, hi]` (`clamp` of the kernel, for `lo ≤ hi`). -/
def clampInt (lo hi x : Int) : Int := max lo (min hi x)

/-- Modelled from the spec: `__v4l2_ctrl_modify_range` belongs to the v4l2
control framework, which is outside this repository.  Per the spec it
updates a control's range bookkeeping and immediately clamps the control's
value and default into the new range; it does not touch the read-only
flag. -/
def modify_range (c : Ctrl) (newMin newMax newStep newDef : Int) : Ctrl :=
  { minimum := newMin, maximum := newMax, step := newStep,
    dflt := clampInt newMin newMax newDef,
    val := clampInt newMin newMax c.val,
    readOnly := c.readOnly }

/-- Modelled from the spec: `v4l2_ctrl_new_std` of the v4l2 framework
(outside this repository) creates a control with the given range, step and
default; its current value starts at the default. -/
def new_ctrl (mn mx st df : Int) (ro : Bool) : Ctrl :=
  ⟨mn, mx, st, df, df, ro⟩

/-- The vblank control as created by `ov5670_init_controls` for current
mode `m`. -/
def ov5670_init_vblank (m : Mode) : Ctrl :=
  new_ctrl (m.vts_min - m.height) (OV5670_VTS_MAX - m.height) 1
    (m.vts_def - m.height) false

/-- The hblank control as created by `ov5670_init_controls` for current
mode `m`: min = max = default = `OV5670_FIXED_PPL - width`, and the code
then sets `V4L2_CTRL_FLAG_READ_ONLY`. -/
def ov5670_init_hblank (m : Mode) : Ctrl :=
  new_ctrl (OV5670_FIXED_PPL - m.width) (OV5670_FIXED_PPL - m.width) 1
    (OV5670_FIXED_PPL - m.width) true

/-- The exposure control as created by `ov5670_init_controls`:
`exposure_max = vts_def - 8`, used as both maximum and default. -/
def ov5670_init_exposure (m : Mode) : Ctrl :=
  new_ctrl OV5670_EXPOSURE_MIN (m.vts_def - 8) OV5670_EXPOSURE_STEP
    (m.vts_def - 8) false

/-- The mode/control state mutated by mode selection and control
propagation. -/
structure DevState where
  cur_mode : Mode
  vblank : Ctrl
  hblank : Ctrl
  exposure : Ctrl
  link_freq_val : Nat
  pixel_rate_val : Int
deriving DecidableEq, Repr

/-- Function `ov5670_init_controls` restricted to the fields of `DevState`. -/
def ov5670_init_controls (m : Mode) : DevState :=
  { cur_mode := m,
    vblank := ov5670_init_vblank m,
    hblank := ov5670_init_hblank m,
    exposure := ov5670_init_exposure m,
    link_freq_val := 0,
    pixel_rate_val := OV5670_PIXEL_RATE }

/-- Nearest-neighbour distance on both dimensions. -/
def sizeDist (m : Mode) (w h : Int) : Int :=
  |m.width - w| + |m.height - h|

/-- Modelled from the spec: `v4l2_find_nearest_size` belongs to the v4l2
framework (outside this repository).  Per the spec it selects the catalog
entry whose (width, height) is nearest to the request on both dimensions,
ties resolved by catalog order — first match wins.  `best` is the current
first-encountered nearest entry. -/
def find_nearest_go (w h : Int) (best : Mode) : List Mode → Mode
  | [] => best
  | m :: rest =>
    if sizeDist m w h < sizeDist best w h then find_nearest_go w h m rest
    else find_nearest_go w h best rest

/-- Modelled from the spec: `v4l2_find_nearest_size` over a non-empty
catalog. -/
def v4l2_find_nearest_size (l : List Mode) (w h : Int) : Option Mode :=
  match l with
  | [] => none
  | m :: rest => some (find_nearest_go w h m rest)

/-- The active-format path of `ov5670_set_pad_format` (the TRY path only
writes the pad-config scratch format and leaves the driver state
untouched): select the nearest supported mode, make it current, set the
link-frequency and pixel-rate controls, update the vblank range and set
vblank to its per-mode default, and pin the hblank range to
`OV5670_FIXED_PPL - width`. -/
def ov5670_set_pad_format (w h : Int) (s : DevState) : DevState :=
  match v4l2_find_nearest_size supported_modes w h with
  | none => s
  | some m =>
    let vblank_def := m.vts_def - m.height
    let s := { s with cur_mode := m,
                      link_freq_val := m.link_freq_index,
                      pixel_rate_val := OV5670_PIXEL_RATE }
    let s := { s with vblank := (modify_range s.vblank (m.vts_min - m.height)
                                  (OV5670_VTS_MAX - m.height) 1 vblank_def) }
    -- __v4l2_ctrl_s_ctrl(vblank, vblank_def)
    let s := { s with vblank := ({ s.vblank with
                val := clampInt s.vblank.minimum s.vblank.maximum vblank_def }) }
    let h_blank := OV5670_FIXED_PPL - s.cur_mode.width
    { s with hblank := modify_range s.hblank h_blank h_blank 1 h_blank }

/-- The control identities dispatched by `ov5670_set_ctrl`. -/
inductive CtrlId
  | vblank
  | analogGain
  | digitalGain
  | exposure
  | testPattern
  | other
deriving DecidableEq, Repr

/-- Environment of one `ov5670_set_ctrl` call: whether
`pm_runtime_get_if_in_use` reports the device powered and in use, and the
return code of the hardware write the control maps to. -/
structure CtrlEnv where
  pmInUse : Bool
  writeRet : Int
deriving DecidableEq, Repr

/-- Function `ov5670_set_ctrl`: first the propagation switch (a vblank change
recomputes exposure's maximum as `cur_mode->height + val - 8` and modifies
the exposure range with that maximum as new default), then the powered
check (`pm_runtime_get_if_in_use` — when the device is not powered the new
value is only cached and 0 is returned), then the hardware-write switch,
then `pm_runtime_put`. -/
def ov5670_set_ctrl (e : CtrlEnv) (id : CtrlId) (v : Int) (s : DevState) :
    Int × DevState :=
  -- /* Propagate change of current control to all related controls */
  let s :=
    match id with
    | CtrlId.vblank =>
      let mx := s.cur_mode.height + v - 8
      { s with exposure :=
        modify_range s.exposure s.exposure.minimum mx s.exposure.step mx }
    | _ => s
  -- /* V4L2 controls values will be applied only when power is already up */
  if !e.pmInUse then (0, s)
  else
    let ret :=
      match id with
      | CtrlId.analogGain => e.writeRet
      | CtrlId.digitalGain => e.writeRet
      | CtrlId.exposure => e.writeRet
      | CtrlId.vblank => e.writeRet
      | CtrlId.testPattern => e.writeRet
      | CtrlId.other => 0                            -- unhandled ids: logged only
    (ret, s)

/-! Firmware blob reader (src/misc/get_acpi_data/get_acpi_data.c). -/

/-- The errno used by every failure branch of `read_acpi_block`. -/
def ENODEV : Int := 19

/-- What `acpi_evaluate_object` can hand back: a buffer object with its
byte contents, or an object of some other type.  A failed evaluation (or a
null pointer) is `Option.none` at the call site. -/
inductive AcpiObj
  | buffer (bytes : List Nat)
  | other
deriving DecidableEq, Repr

/-- Function `read_acpi_block(dev, id, data, size)`: fails with `-ENODEV` when
evaluation fails, when the object is not a buffer, or when the buffer's
length exceeds the caller's capacity `size` (in that case nothing is
copied); otherwise `memcpy`s `min(size, length)` bytes over the front of
the caller's buffer and returns the buffer's actual length. -/
def read_acpi_block (evalObj : Option AcpiObj) (size : Nat) (data : List Nat) :
    Int × List Nat :=
  match evalObj with
  | none => (-ENODEV, data)
  | some AcpiObj.other => (-ENODEV, data)
  | some (AcpiObj.buffer bs) =>
    if bs.length > size then (-ENODEV, data)
    else
      let n := min size bs.length
      ((bs.length : Int), bs.take n ++ data.drop n)

/-! Helper lemmas about the resource sequencer. -/

theorem power_ctrl_fst (env : Nat → PCEnv) (flag : Bool) (s : OvPower) :
    (power_ctrl env flag s).1 = 0 := by
  rcases s with ⟨ce, re, c, t⟩
  cases flag <;> cases ce <;> cases re <;> rfl

theorem power_ctrl_flags (env : Nat → PCEnv) (flag : Bool) (s : OvPower) :
    (power_ctrl env flag s).2.clk_enabled = false ∧
    (power_ctrl env flag s).2.regulator_enabled = false := by
  rcases s with ⟨ce, re, c, t⟩
  cases flag <;> cases ce <;> cases re <;> exact ⟨rfl, rfl⟩

theorem power_ctrl_true_trace (env : Nat → PCEnv) (s : OvPower) :
    (power_ctrl env true s).2.trace =
      s.trace ++ [PEv.crsSet true, PEv.pmicSet true, PEv.regEnable, PEv.clkEnable,
                  PEv.clkDisable, PEv.regDisable, PEv.pmicSet true, PEv.crsSet true] := by
  rcases s with ⟨ce, re, c, t⟩
  simp [power_ctrl, gpio_crs_ctrl, gpio_pmic_ctrl]

theorem __power_up_eq (env : Nat → PCEnv) (s : OvPower) :
    __power_up env s =
      (0, sleep_range 30000 31000 (sleep_range 10000 11000 (power_ctrl env true s).2)) := by
  unfold __power_up
  rw [power_ctrl_fst]
  rfl

theorem power_down_eq (env : Nat → PCEnv) (s : OvPower) :
    power_down env s = power_ctrl env false s := rfl

theorem power_down_flags (env : Nat → PCEnv) (s : OvPower) :
    (power_down env s).2.clk_enabled = false ∧
    (power_down env s).2.regulator_enabled = false := by
  rw [power_down_eq]
  exact power_ctrl_flags env false s

theorem power_up_eq (env : Nat → PCEnv) (s : OvPower) :
    power_up env s = (0, (__power_up env s).2) := by
  unfold power_up
  rw [show retry_count = 3 + 1 from rfl]
  unfold power_up_go
  rw [__power_up_eq]
  rfl

/-- The composite one-round step of the retry loop: one (failed) power-up
attempt `pUp` followed by the full `power_down` recovery, keeping only the
state. -/
def pdRound (env : Nat → PCEnv) (pUp : OvPower → Int × OvPower) (t : OvPower) :
    OvPower :=
  (power_down env (pUp t).2).2

theorem power_up_go_all_fail {σ : Type} (pUp : σ → Int × σ) (pDown : σ → σ)
    (h : ∀ t, (pUp t).1 ≠ 0) :
    ∀ (n : Nat) (s : σ) (last : Int),
      power_up_go pUp pDown (n + 1) s last =
        ((pUp ((fun t => pDown (pUp t).2)^[n] s)).1,
         (fun t => pDown (pUp t).2)^[n + 1] s,
         n + 1) := by
  intro n
  induction n with
  | zero =>
    intro s last
    rw [power_up_go]
    rw [if_neg (h s)]
    rw [power_up_go]
    simp [Function.iterate_succ_apply]
  | succ m ih =>
    intro s last
    rw [power_up_go]
    rw [if_neg (h s)]
    rw [ih (pDown (pUp s).2) (pUp s).1]
    simp [Function.iterate_succ_apply]

/-- The attach-time power state: both enable flags clear, no calls made,
empty history. -/
def pcInit : OvPower := ⟨false, false, 0, []⟩

/-- An environment whose clock-enable step fails with -5 (-EIO) on every
call while the other resource calls succeed. -/
def pcEnvClkFail : Nat → PCEnv := fun _ => ⟨0, -5, 0⟩

/-- An environment in which every fallible resource call succeeds. -/
def pcEnvZero : Nat → PCEnv := fun _ => ⟨0, 0, 0⟩

/-- A power-up attempt step that always fails with -19 (-ENODEV) and
leaves the state unchanged. -/
def pUpFail : OvPower → Int × OvPower := fun t => (-19, t)

/-- C1, counterexample: with a clock-enable step that fails (returns -5),
`power_ctrl(flag=true)` still returns 0 (success), so the success/failure
result of the power-up step is not determined by the result of the final
clock-enable step as the claim states: the clock-enable result is
discarded. -/
theorem c1_counterexample :
    (pcEnvClkFail 0).clkEnableRet = -5 ∧
    (power_ctrl pcEnvClkFail true pcInit).1 = 0 := by
  decide

/-- C1 (amended): during power-up every resource step of
`power_ctrl(flag=true)` executes in order — firmware-declared GPIO lines
set active, companion PMIC GPIO bank set active, regulator bundle enabled,
clock enabled last — and no step is skipped because an earlier step
reported a failure (the event trace is the same for every environment);
but the success/failure result of the whole call is the result of the
final firmware-GPIO set call of the unconditional turn-off block, which is
always 0, not the result of the clock-enable step. -/
theorem c1_power_up_steps_in_order (env : Nat → PCEnv) (s : OvPower) :
    (power_ctrl env true s).2.trace =
      s.trace ++ [PEv.crsSet true, PEv.pmicSet true, PEv.regEnable, PEv.clkEnable,
                  PEv.clkDisable, PEv.regDisable, PEv.pmicSet true, PEv.crsSet true] ∧
    (power_ctrl env true s).1 = 0 :=
  ⟨power_ctrl_true_trace env s, power_ctrl_fst env true s⟩

/-- C2: the retry loop of `power_up` (here with the attempt step abstract,
since the concrete `__power_up` cannot report failure) makes exactly
`retry_count = 4` attempts when the attempt step persistently fails,
performs the full `power_down` after every failed attempt including the
last, returns the error of the last attempt, and leaves the final state as
the last `power_down`'s powered-off state (both enable flags clear). -/
theorem c2_power_up_retry_policy (env : Nat → PCEnv)
    (pUp : OvPower → Int × OvPower) (s : OvPower) (h : ∀ t, (pUp t).1 ≠ 0) :
    power_up_go pUp (fun t => (power_down env t).2) retry_count s 0 =
      ((pUp ((pdRound env pUp)^[3] s)).1, (pdRound env pUp)^[4] s, 4) ∧
    ((pdRound env pUp)^[4] s).clk_enabled = false ∧
    ((pdRound env pUp)^[4] s).regulator_enabled = false := by
  refine ⟨?_, ?_, ?_⟩
  · exact power_up_go_all_fail pUp (fun t => (power_down env t).2) h 3 s 0
  · show ((pdRound env pUp) ((pdRound env pUp)^[3] s)).clk_enabled = false
    exact (power_down_flags env _).1
  · show ((pdRound env pUp) ((pdRound env pUp)^[3] s)).regulator_enabled = false
    exact (power_down_flags env _).2

/-- C2, witness: the retry policy at a concrete always-failing attempt
step. -/
theorem c2_power_up_retry_policy_witness :
    power_up_go pUpFail (fun t => (power_down pcEnvZero t).2) retry_count pcInit 0 =
      ((pUpFail ((pdRound pcEnvZero pUpFail)^[3] pcInit)).1,
       (pdRound pcEnvZero pUpFail)^[4] pcInit, 4) ∧
    ((pdRound pcEnvZero pUpFail)^[4] pcInit).clk_enabled = false ∧
    ((pdRound pcEnvZero pUpFail)^[4] pcInit).regulator_enabled = false :=
  c2_power_up_retry_policy pcEnvZero pUpFail pcInit
    (fun _ => by show (-19 : Int) ≠ 0; decide)

/-- C9: `gpio_ctrl` is a stub returning 0 and `power_ctrl` always returns
the 0 of its final GPIO-set call, so `__power_up` and `power_up` return 0
on every call; `power_up` returns after its first attempt with that
attempt's state and an attempt count of 1, so the failure branch, the
later retry iterations and the intermediate `power_down` calls are
unreachable. -/
theorem c9_power_up_always_succeeds (env : Nat → PCEnv) (flag : Bool) (s : OvPower) :
    gpio_ctrl flag = 0 ∧
    (power_ctrl env flag s).1 = 0 ∧
    (__power_up env s).1 = 0 ∧
    power_up env s = (0, (__power_up env s).2) ∧
    (power_up_go (__power_up env) (fun t => (power_down env t).2)
      retry_count s 0).2.2 = 1 := by
  refine ⟨rfl, power_ctrl_fst env flag s, ?_, power_up_eq env s, ?_⟩
  · rw [__power_up_eq]
  · rw [show retry_count = 3 + 1 from rfl]
    unfold power_up_go
    rw [__power_up_eq]
    rfl

/-- C10: every call to `power_ctrl`, with either flag value, terminates
with `clk_enabled = false` and `regulator_enabled = false`: the turn-off
block runs unconditionally after the turn-on block, so a power-on call
disables within the same call the clock and the regulator bundle the
turn-on block just enabled, as the enable/disable pairs in the trace
show. -/
theorem c10_power_ctrl_never_leaves_enabled (env : Nat → PCEnv) (flag : Bool)
    (s : OvPower) :
    (power_ctrl env flag s).2.clk_enabled = false ∧
    (power_ctrl env flag s).2.regulator_enabled = false ∧
    (power_ctrl env true s).2.trace =
      s.trace ++ [PEv.crsSet true, PEv.pmicSet true, PEv.regEnable, PEv.clkEnable,
                  PEv.clkDisable, PEv.regDisable, PEv.pmicSet true, PEv.crsSet true] :=
  ⟨(power_ctrl_flags env flag s).1, (power_ctrl_flags env flag s).2,
   power_ctrl_true_trace env s⟩

/-! Theorems about the streaming state machine. -/

theorem ov5670_suspend_snd (e : StreamEnv) (s : StreamState) :
    (ov5670_suspend e s).2 = s := rfl

theorem ov5670_resume_snd (e : StreamEnv) (s : StreamState) :
    (ov5670_resume e s).2 = s := by
  simp only [ov5670_resume]
  split_ifs <;> rfl

/-- C3: if `ov5670_set_stream(enable=true)` is called while not streaming
and any sub-step fails — the runtime-PM activation (negative
`pm_runtime_get_sync` result) or any step of `ov5670_start_streaming`
(software-reset write, PLL list, mode list, control replay, streaming-mode
write) — the call returns that sub-step's error, the streaming flag
remains false, the runtime-PM usage count is back at its pre-call value,
and the call's runtime-PM events are exactly one get and one release
(put_noidle after an activation failure, put otherwise): the reference
taken by this call is released exactly once. -/
theorem c3_stream_start_failure (e : StreamEnv) (s : StreamState)
    (h1 : s.streaming = false)
    (h2 : e.pmGetRet < 0 ∨ (0 ≤ e.pmGetRet ∧ ov5670_start_streaming e ≠ 0)) :
    (ov5670_set_stream e true s).1 =
      (if e.pmGetRet < 0 then e.pmGetRet else ov5670_start_streaming e) ∧
    (ov5670_set_stream e true s).1 ≠ 0 ∧
    (ov5670_set_stream e true s).2.1.streaming = false ∧
    (ov5670_set_stream e true s).2.1.pmCount = s.pmCount ∧
    (ov5670_set_stream e true s).2.2 =
      (if e.pmGetRet < 0 then [PmEv.get, PmEv.putNoidle] else [PmEv.get, PmEv.put]) := by
  rcases h2 with hpm | ⟨hpm, hss⟩
  · refine ⟨?_, ?_, ?_, ?_, ?_⟩ <;> simp [ov5670_set_stream, h1, hpm]
    omega
  · have hpm' : ¬e.pmGetRet < 0 := not_lt.mpr hpm
    refine ⟨?_, ?_, ?_, ?_, ?_⟩ <;> simp [ov5670_set_stream, h1, hpm', hss]

/-- C3, witness: a concrete runtime-PM activation failure (-13). -/
theorem c3_stream_start_failure_witness :
    (ov5670_set_stream ⟨-13, 0, 0, 0, 0, 0, 0⟩ true ⟨false, 0⟩).1 =
      (if (⟨-13, 0, 0, 0, 0, 0, 0⟩ : StreamEnv).pmGetRet < 0 then
        (⟨-13, 0, 0, 0, 0, 0, 0⟩ : StreamEnv).pmGetRet
       else ov5670_start_streaming ⟨-13, 0, 0, 0, 0, 0, 0⟩) ∧
    (ov5670_set_stream ⟨-13, 0, 0, 0, 0, 0, 0⟩ true ⟨false, 0⟩).1 ≠ 0 ∧
    (ov5670_set_stream ⟨-13, 0, 0, 0, 0, 0, 0⟩ true ⟨false, 0⟩).2.1.streaming = false ∧
    (ov5670_set_stream ⟨-13, 0, 0, 0, 0, 0, 0⟩ true ⟨false, 0⟩).2.1.pmCount =
      (⟨false, 0⟩ : StreamState).pmCount ∧
    (ov5670_set_stream ⟨-13, 0, 0, 0, 0, 0, 0⟩ true ⟨false, 0⟩).2.2 =
      (if (⟨-13, 0, 0, 0, 0, 0, 0⟩ : StreamEnv).pmGetRet < 0 then
        [PmEv.get, PmEv.putNoidle]
       else [PmEv.get, PmEv.put]) :=
  c3_stream_start_failure ⟨-13, 0, 0, 0, 0, 0, 0⟩ ⟨false, 0⟩ rfl
    (Or.inl (by decide))

/-- C8: in every state reachable through set-stream, suspend and resume
transitions, the runtime-PM usage count is nonnegative and
`streaming = true` implies the count is at least 1 — the reference
acquired at stream start is still held, i.e. the device is powered; the
converse direction is not claimed (the count may be positive while not
streaming). -/
theorem c8_streaming_implies_powered (s : StreamState) (h : Reach s) :
    0 ≤ s.pmCount ∧ (s.streaming = true → 1 ≤ s.pmCount) := by
  induction h with
  | init => exact ⟨le_refl 0, by simp⟩
  | stream e enable s hr ih =>
    rcases ih with ⟨h0, h1⟩
    simp only [ov5670_set_stream]
    split_ifs with hse hen hpm hr0
    · exact ⟨h0, h1⟩
    · -- pm_runtime_get_sync failed: count restored, flag unchanged
      refine ⟨?_, ?_⟩
      · show 0 ≤ s.pmCount + 1 - 1
        omega
      · intro hstr
        have := h1 hstr
        show 1 ≤ s.pmCount + 1 - 1
        omega
    · -- ov5670_start_streaming failed: count restored, flag unchanged
      refine ⟨?_, ?_⟩
      · show 0 ≤ s.pmCount + 1 - 1
        omega
      · intro hstr
        have := h1 hstr
        show 1 ≤ s.pmCount + 1 - 1
        omega
    · -- streaming started: flag set with the reference held
      refine ⟨?_, ?_⟩
      · show 0 ≤ s.pmCount + 1
        omega
      · intro _
        show 1 ≤ s.pmCount + 1
        omega
    · -- streaming stopped: the held reference is released
      have henf : enable = false := by
        cases enable
        · rfl
        · exact absurd rfl hen
      have hst : s.streaming = true := by
        cases hs : s.streaming
        · exact absurd (hs.trans henf.symm) hse
        · rfl
      have hc := h1 hst
      refine ⟨?_, ?_⟩
      · show 0 ≤ s.pmCount - 1
        omega
      · intro hstr
        exact absurd hstr (by simp)
  | susp e s hr ih => exact ih
  | res e s hr ih => rw [ov5670_resume_snd]; exact ih

/-- C8, witness: the invariant at the reachable attach-time state. -/
theorem c8_streaming_implies_powered_witness :
    0 ≤ (⟨false, 0⟩ : StreamState).pmCount ∧
    ((⟨false, 0⟩ : StreamState).streaming = true →
      1 ≤ (⟨false, 0⟩ : StreamState).pmCount) :=
  c8_streaming_implies_powered ⟨false, 0⟩ Reach.init

/-! Helper lemmas about controls and mode negotiation. -/

theorem clampInt_self (a : Int) : clampInt a a a = a := by
  simp [clampInt]

theorem clampInt_hi_of_le (lo hi : Int) (h : lo ≤ hi) : clampInt lo hi hi = hi := by
  simp [clampInt, h]

theorem clampInt_le_hi (lo hi x : Int) (h : lo ≤ hi) : clampInt lo hi x ≤ hi := by
  simp only [clampInt]
  omega

theorem clampInt_lo_le (lo hi x : Int) : lo ≤ clampInt lo hi x :=
  le_max_left _ _

theorem mem_supported_modes_vts_min (m : Mode) (hm : m ∈ supported_modes) :
    12 ≤ m.vts_min := by
  simp only [supported_modes, List.mem_cons, List.not_mem_nil, or_false] at hm
  rcases hm with h | h | h | h | h | h <;> subst h <;> decide

theorem set_ctrl_vblank_exposure (e : CtrlEnv) (v : Int) (s : DevState) :
    (ov5670_set_ctrl e CtrlId.vblank v s).2.exposure =
      modify_range s.exposure s.exposure.minimum (s.cur_mode.height + v - 8)
        s.exposure.step (s.cur_mode.height + v - 8) := by
  rcases e with ⟨pm, wr⟩
  cases pm <;> rfl

theorem find_nearest_go_mem (w h : Int) : ∀ (l : List Mode) (best : Mode),
    find_nearest_go w h best l ∈ best :: l := by
  intro l
  induction l with
  | nil => intro best; simp [find_nearest_go]
  | cons m rest ih =>
    intro best
    simp only [find_nearest_go]
    split_ifs
    · exact List.mem_cons_of_mem _ (ih m)
    · rcases List.mem_cons.mp (ih best) with hh | ht
      · rw [hh]; exact List.mem_cons_self _ _
      · exact List.mem_cons_of_mem _ (List.mem_cons_of_mem _ ht)

theorem set_pad_format_cur_mode (w h : Int) (s : DevState) :
    (ov5670_set_pad_format w h s).cur_mode =
      find_nearest_go w h mode_2592x1944
        [mode_1296x972, mode_648x486, mode_2560x1440, mode_1280x720,
         mode_640x360] := rfl

theorem set_pad_format_cur_mode_mem (w h : Int) (s : DevState) :
    (ov5670_set_pad_format w h s).cur_mode ∈ supported_modes := by
  rw [set_pad_format_cur_mode w h s]
  exact find_nearest_go_mem w h _ _

theorem set_pad_format_hblank (w h : Int) (s : DevState) :
    (ov5670_set_pad_format w h s).hblank =
      modify_range s.hblank
        (OV5670_FIXED_PPL - (ov5670_set_pad_format w h s).cur_mode.width)
        (OV5670_FIXED_PPL - (ov5670_set_pad_format w h s).cur_mode.width) 1
        (OV5670_FIXED_PPL - (ov5670_set_pad_format w h s).cur_mode.width) := rfl

/-- The attach-time control state: `ov5670_init_controls` with the default
current mode `supported_modes[0]` set by probe. -/
def devInit : DevState := ov5670_init_controls mode_2592x1944

/-- C4: for a vertical-blanking value `v` in the control's range, setting
the vertical-blanking control first recomputes the exposure control's
maximum as `cur_mode->height + v - 8` and clamps the exposure value and
default into the new range, and this range bookkeeping is identical
whatever the powered state reported by `pm_runtime_get_if_in_use` (the
last conjunct: the exposure control after the call does not depend on the
environment), since it precedes the powered-only hardware write. -/
theorem c4_vblank_recomputes_exposure_range (e e2 : CtrlEnv) (v : Int)
    (s : DevState)
    (hm : s.cur_mode ∈ supported_modes)
    (hlo : s.cur_mode.vts_min - s.cur_mode.height ≤ v)
    (hhi : v ≤ OV5670_VTS_MAX - s.cur_mode.height)
    (hmin : s.exposure.minimum = OV5670_EXPOSURE_MIN)
    (hval : s.exposure.minimum ≤ s.exposure.val) :
    (ov5670_set_ctrl e CtrlId.vblank v s).2.exposure.maximum
        = s.cur_mode.height + v - 8 ∧
    (ov5670_set_ctrl e CtrlId.vblank v s).2.exposure.dflt
        = s.cur_mode.height + v - 8 ∧
    (ov5670_set_ctrl e CtrlId.vblank v s).2.exposure.minimum
        = s.exposure.minimum ∧
    (ov5670_set_ctrl e CtrlId.vblank v s).2.exposure.minimum
        ≤ (ov5670_set_ctrl e CtrlId.vblank v s).2.exposure.val ∧
    (ov5670_set_ctrl e CtrlId.vblank v s).2.exposure.val
        ≤ (ov5670_set_ctrl e CtrlId.vblank v s).2.exposure.maximum ∧
    (ov5670_set_ctrl e2 CtrlId.vblank v s).2.exposure
        = (ov5670_set_ctrl e CtrlId.vblank v s).2.exposure := by
  have hvts := mem_supported_modes_vts_min s.cur_mode hm
  have hle : s.exposure.minimum ≤ s.cur_mode.height + v - 8 := by
    rw [hmin]
    simp only [OV5670_EXPOSURE_MIN]
    omega
  rw [set_ctrl_vblank_exposure e v s, set_ctrl_vblank_exposure e2 v s]
  refine ⟨rfl, ?_, rfl, ?_, ?_, rfl⟩
  · exact clampInt_hi_of_le _ _ hle
  · exact clampInt_lo_le _ _ _
  · exact clampInt_le_hi _ _ _ hle

/-- C4, witness: the attach-time state with the default mode and the
mode's minimum vertical blanking, once not powered and once powered. -/
theorem c4_vblank_recomputes_exposure_range_witness :
    (ov5670_set_ctrl ⟨false, 0⟩ CtrlId.vblank 112 devInit).2.exposure.maximum
        = devInit.cur_mode.height + 112 - 8 ∧
    (ov5670_set_ctrl ⟨false, 0⟩ CtrlId.vblank 112 devInit).2.exposure.dflt
        = devInit.cur_mode.height + 112 - 8 ∧
    (ov5670_set_ctrl ⟨false, 0⟩ CtrlId.vblank 112 devInit).2.exposure.minimum
        = devInit.exposure.minimum ∧
    (ov5670_set_ctrl ⟨false, 0⟩ CtrlId.vblank 112 devInit).2.exposure.minimum
        ≤ (ov5670_set_ctrl ⟨false, 0⟩ CtrlId.vblank 112 devInit).2.exposure.val ∧
    (ov5670_set_ctrl ⟨false, 0⟩ CtrlId.vblank 112 devInit).2.exposure.val
        ≤ (ov5670_set_ctrl ⟨false, 0⟩ CtrlId.vblank 112 devInit).2.exposure.maximum ∧
    (ov5670_set_ctrl ⟨true, -7⟩ CtrlId.vblank 112 devInit).2.exposure
        = (ov5670_set_ctrl ⟨false, 0⟩ CtrlId.vblank 112 devInit).2.exposure :=
  c4_vblank_recomputes_exposure_range ⟨false, 0⟩ ⟨true, -7⟩ 112 devInit
    (by decide) (by decide) (by decide) (by decide) (by decide)

/-- C5: for every mode in the supported-mode catalog the horizontal
blanking control's minimum, maximum and default all equal
`OV5670_FIXED_PPL - width = 2724 - width` and the control is read-only,
both as created by `ov5670_init_controls` and after any mode selection by
`ov5670_set_pad_format` (whose selected mode is again a catalog mode), so
`horizontalBlanking + width = 2724` exactly. -/
theorem c5_hblank_fixed_per_mode (m : Mode) (w h : Int) (s : DevState)
    (hm : m ∈ supported_modes) (hro : s.hblank.readOnly = true) :
    (ov5670_init_hblank m).minimum = OV5670_FIXED_PPL - m.width ∧
    (ov5670_init_hblank m).maximum = OV5670_FIXED_PPL - m.width ∧
    (ov5670_init_hblank m).dflt = OV5670_FIXED_PPL - m.width ∧
    (ov5670_init_hblank m).readOnly = true ∧
    (ov5670_init_hblank m).minimum + m.width = 2724 ∧
    (ov5670_set_pad_format w h s).hblank.minimum =
      OV5670_FIXED_PPL - (ov5670_set_pad_format w h s).cur_mode.width ∧
    (ov5670_set_pad_format w h s).hblank.maximum =
      OV5670_FIXED_PPL - (ov5670_set_pad_format w h s).cur_mode.width ∧
    (ov5670_set_pad_format w h s).hblank.dflt =
      OV5670_FIXED_PPL - (ov5670_set_pad_format w h s).cur_mode.width ∧
    (ov5670_set_pad_format w h s).hblank.minimum +
      (ov5670_set_pad_format w h s).cur_mode.width = 2724 ∧
    (ov5670_set_pad_format w h s).hblank.readOnly = true ∧
    (ov5670_set_pad_format w h s).cur_mode ∈ supported_modes := by
  refine ⟨rfl, rfl, rfl, rfl, ?_, ?_, ?_, ?_, ?_, ?_, set_pad_format_cur_mode_mem w h s⟩
  · show OV5670_FIXED_PPL - m.width + m.width = 2724
    simp only [OV5670_FIXED_PPL]
    omega
  · rw [set_pad_format_hblank w h s]
    rfl
  · rw [set_pad_format_hblank w h s]
    rfl
  · rw [set_pad_format_hblank w h s]
    exact clampInt_self _
  · rw [set_pad_format_hblank w h s]
    show OV5670_FIXED_PPL - (ov5670_set_pad_format w h s).cur_mode.width +
      (ov5670_set_pad_format w h s).cur_mode.width = 2724
    simp only [OV5670_FIXED_PPL]
    omega
  · rw [set_pad_format_hblank w h s]
    exact hro

/-- C5, witness: the first catalog mode and a selection request of
(1300, 700) from the attach-time state. -/
theorem c5_hblank_fixed_per_mode_witness :
    (ov5670_init_hblank mode_2592x1944).minimum =
      OV5670_FIXED_PPL - mode_2592x1944.width ∧
    (ov5670_init_hblank mode_2592x1944).maximum =
      OV5670_FIXED_PPL - mode_2592x1944.width ∧
    (ov5670_init_hblank mode_2592x1944).dflt =
      OV5670_FIXED_PPL - mode_2592x1944.width ∧
    (ov5670_init_hblank mode_2592x1944).readOnly = true ∧
    (ov5670_init_hblank mode_2592x1944).minimum + mode_2592x1944.width = 2724 ∧
    (ov5670_set_pad_format 1300 700 devInit).hblank.minimum =
      OV5670_FIXED_PPL - (ov5670_set_pad_format 1300 700 devInit).cur_mode.width ∧
    (ov5670_set_pad_format 1300 700 devInit).hblank.maximum =
      OV5670_FIXED_PPL - (ov5670_set_pad_format 1300 700 devInit).cur_mode.width ∧
    (ov5670_set_pad_format 1300 700 devInit).hblank.dflt =
      OV5670_FIXED_PPL - (ov5670_set_pad_format 1300 700 devInit).cur_mode.width ∧
    (ov5670_set_pad_format 1300 700 devInit).hblank.minimum +
      (ov5670_set_pad_format 1300 700 devInit).cur_mode.width = 2724 ∧
    (ov5670_set_pad_format 1300 700 devInit).hblank.readOnly = true ∧
    (ov5670_set_pad_format 1300 700 devInit).cur_mode ∈ supported_modes :=
  c5_hblank_fixed_per_mode mode_2592x1944 1300 700 devInit (by decide) (by decide)

/-- C6: mode selection is idempotent — whatever mode
`ov5670_set_pad_format` selects as nearest for a requested size (w, h)
(ties resolved by catalog order, first match wins), a second call
requesting exactly that mode's size selects the same mode again, from any
driver state. -/
theorem c6_mode_selection_idempotent (w h : Int) (s s2 : DevState) :
    (ov5670_set_pad_format (ov5670_set_pad_format w h s).cur_mode.width
        (ov5670_set_pad_format w h s).cur_mode.height s2).cur_mode =
      (ov5670_set_pad_format w h s).cur_mode := by
  have hmem := set_pad_format_cur_mode_mem w h s
  rw [set_pad_format_cur_mode w h s] at hmem ⊢
  rw [set_pad_format_cur_mode _ _ s2]
  generalize find_nearest_go w h mode_2592x1944
    [mode_1296x972, mode_648x486, mode_2560x1440, mode_1280x720,
     mode_640x360] = m at hmem ⊢
  simp only [supported_modes, List.mem_cons, List.not_mem_nil, or_false] at hmem
  rcases hmem with h1 | h1 | h1 | h1 | h1 | h1 <;> subst h1 <;> decide

/-- C7: the firmware-blob read fails with -ENODEV when evaluation fails or
the object is not a buffer (caller's buffer untouched); fails with -ENODEV
and copies nothing when the returned length exceeds the caller's capacity;
and otherwise copies exactly `min(capacity, returned_length)` bytes over
the front of the caller's buffer and returns the actual returned buffer
length. -/
theorem c7_read_acpi_block_contract (size : Nat) (data : List Nat) :
    read_acpi_block none size data = (-ENODEV, data) ∧
    read_acpi_block (some AcpiObj.other) size data = (-ENODEV, data) ∧
    (∀ bs : List Nat, size < bs.length →
      read_acpi_block (some (AcpiObj.buffer bs)) size data = (-ENODEV, data)) ∧
    (∀ bs : List Nat, bs.length ≤ size →
      (read_acpi_block (some (AcpiObj.buffer bs)) size data).1
          = (bs.length : Int) ∧
      (read_acpi_block (some (AcpiObj.buffer bs)) size data).2
          = bs.take (min size bs.length) ++ data.drop (min size bs.length)) := by
  refine ⟨rfl, rfl, ?_, ?_⟩
  · intro bs hlt
    simp [read_acpi_block, hlt]
  · intro bs hle
    have hnot : ¬bs.length > size := not_lt.mpr hle
    simp [read_acpi_block, hnot]

/-- C7, witness: a blob of length 3 against capacity 2 (the spec's `N-1`
test, nothing copied) and against capacity 3 (full copy, actual length
returned). -/
theorem c7_read_acpi_block_contract_witness :
    read_acpi_block (some (AcpiObj.buffer [1, 2, 3])) 2 [9, 9]
        = (-ENODEV, [9, 9]) ∧
    (read_acpi_block (some (AcpiObj.buffer [1, 2, 3])) 3 [9, 9, 9]).1
        = (([1, 2, 3] : List Nat).length : Int) :=
  ⟨(c7_read_acpi_block_contract 2 [9, 9]).2.2.1 [1, 2, 3] (by decide),
   ((c7_read_acpi_block_contract 3 [9, 9, 9]).2.2.2 [1, 2, 3] (by decide)).1⟩

end OV5670

